import Mathlib

/-!
# Blog post CRUD handlers (`main.go`)

A shallow embedding of the five fiber handlers of `main.go`
(`getBlogPosts`, `getBlogPost`, `createBlogPost`, `updateBlogPost`,
`deleteBlogPost`).  Every handler is a tree of the interactions it has with
its surroundings, in the order in which the Go code performs them: parsing
the request body (`c.BodyParser`), reading the clock (`time.Now()`), and the
five SQL statements sent through the global `db`.  `run` executes such a tree
against an arbitrary environment and records the interactions.
-/

namespace BlogCrud

/-! ## Data model -/

/-- A `time.Time` instant, counted from the zero value of `time.Time`. -/
abbrev Time := Int

/-- The struct `BlogPost` of `main.go`. -/
structure BlogPost where
  ID : Int
  Title : String
  Description : String
  Body : String
  CreatedAt : Time
  UpdatedAt : Time
deriving DecidableEq, Repr

/-- An error value returned by `database/sql`: either the sentinel
`sql.ErrNoRows` or any other error, with its content. -/
inductive StoreErr where
  | ErrNoRows
  | other (detail : String)
deriving DecidableEq, Repr

/-- Result of a call that returns `(value, error)`. -/
inductive Res (α : Type) where
  | ok (v : α)
  | err (e : StoreErr)
deriving DecidableEq, Repr

/-- The behaviour of a `*sql.Rows` cursor: one entry per `rows.Next()` that
returned true, holding what the following `rows.Scan` produced, and the error
(if any) that made `rows.Next()` return false, as `rows.Err()` reports it. -/
structure Rows where
  scans : List (Res BlogPost)
  iterErr : Option StoreErr
deriving DecidableEq, Repr

/-- The JSON value written by `c.JSON`. -/
inductive Payload where
  /-- The map `fiber.Map{"error": msg}`. -/
  | error (msg : String)
  /-- The map `fiber.Map{"message": msg}`. -/
  | message (msg : String)
  | post (p : BlogPost)
  | posts (ps : List BlogPost)
deriving DecidableEq, Repr

/-- An HTTP response: status code and JSON body. -/
structure Response where
  status : Nat
  body : Payload
deriving DecidableEq, Repr

def StatusOK : Nat := 200
def StatusCreated : Nat := 201
def StatusBadRequest : Nat := 400
def StatusNotFound : Nat := 404
def StatusInternalServerError : Nat := 500

/-! ## Handlers as interaction trees -/

/-- A handler run: each constructor but `done` is one interaction with the
surroundings, continued with the answer. -/
inductive Prog where
  /-- The handler returns the response. -/
  | done (r : Response)
  /-- The call `c.BodyParser(post)` with `post := new(BlogPost)`; `none` is a parse error. -/
  | bodyParser (k : Option BlogPost → Prog)
  /-- The call `time.Now()`. -/
  | timeNow (k : Time → Prog)
  /-- The query `SELECT id, title, description, body, created_at, updated_at FROM blog_posts`. -/
  | selectAll (k : Res Rows → Prog)
  /-- The query `SELECT ... FROM blog_posts WHERE id = $1` with `QueryRow` and `Scan`. -/
  | selectById (id : String) (k : Res BlogPost → Prog)
  /-- The statement `INSERT INTO blog_posts (title, description, body, created_at, updated_at)
  VALUES ($1, $2, $3, $4, $5) RETURNING id` with `QueryRow` and `Scan(&post.ID)`. -/
  | insertReturningId (title description body : String) (createdAt updatedAt : Time)
      (k : Res Int → Prog)
  /-- The statement `UPDATE blog_posts SET title = $1, description = $2, body = $3,
  updated_at = $4 WHERE id = $5` with `Exec`. -/
  | updateById (title description body : String) (updatedAt : Time) (id : String)
      (k : Res Unit → Prog)
  /-- The statement `DELETE FROM blog_posts WHERE id = $1` with `Exec`; on success the
  answer holds what `res.RowsAffected()` returns. -/
  | deleteById (id : String) (k : Res (Res Int) → Prog)

/-- The shortcut `c.Status(status).JSON(fiber.Map{"error": msg})`. -/
def fail (status : Nat) (msg : String) : Prog :=
  .done ⟨status, .error msg⟩

/-- The loop `for rows.Next() { ... rows.Scan ... posts = append(posts, post) }` of
`getBlogPosts`, followed by `return c.JSON(posts)`.  `rows.Err()` is not consulted. -/
def scanLoop : List (Res BlogPost) → List BlogPost → Response
  | [], posts => ⟨StatusOK, .posts posts⟩
  | .err _ :: _, _ => ⟨StatusInternalServerError, .error "Failed to parse post"⟩
  | .ok post :: rest, posts => scanLoop rest (posts ++ [post])

/-- Handler `getBlogPosts` (`GET /api/blog-post`). -/
def getBlogPosts : Prog :=
  .selectAll fun
    | .err _ => fail StatusInternalServerError "Failed to fetch posts"
    | .ok rows => .done (scanLoop rows.scans [])

/-- Handler `getBlogPost` (`GET /api/blog-post/:id`). -/
def getBlogPost (id : String) : Prog :=
  .selectById id fun
    | .err .ErrNoRows => fail StatusNotFound "Post not found"
    | .err (.other _) => fail StatusInternalServerError "Failed to fetch post"
    | .ok post => .done ⟨StatusOK, .post post⟩

/-- Handler `createBlogPost` (`POST /api/blog-post`).  The two `time.Now()` arguments of
`db.QueryRow` are evaluated left to right before the call; on success only `post.ID` is
overwritten by `Scan`.  The `log.Printf` of the parse error writes to the server log only
and is left out. -/
def createBlogPost : Prog :=
  .bodyParser fun
    | none => fail StatusBadRequest "Invalid input"
    | some post =>
      .timeNow fun createdAt =>
      .timeNow fun updatedAt =>
      .insertReturningId post.Title post.Description post.Body createdAt updatedAt fun
        | .err _ => fail StatusInternalServerError "Failed to create post"
        | .ok newID => .done ⟨StatusCreated, .post { post with ID := newID }⟩

/-- The three conditional assignments of `updateBlogPost` (lines 161-169). -/
def mergeFields (existingPost post : BlogPost) : BlogPost :=
  let e1 := if post.Title ≠ "" then { existingPost with Title := post.Title } else existingPost
  let e2 := if post.Description ≠ "" then { e1 with Description := post.Description } else e1
  if post.Body ≠ "" then { e2 with Body := post.Body } else e2

/-- Handler `updateBlogPost` (`PATCH /api/blog-post/:id`): the id check, then the body
parser, then the fetch, the merge, the update statement with a first `time.Now()`, and a
second `time.Now()` for the record that is returned. -/
def updateBlogPost (id : String) : Prog :=
  if id = "" then fail StatusBadRequest "ID is required"
  else
    .bodyParser fun
      | none => fail StatusBadRequest "Invalid input"
      | some post =>
        .selectById id fun
          | .err .ErrNoRows => fail StatusNotFound "Post not found"
          | .err (.other _) => fail StatusInternalServerError "Failed to retrieve post"
          | .ok existingPost =>
            let merged := mergeFields existingPost post
            .timeNow fun written =>
            .updateById merged.Title merged.Description merged.Body written id fun
              | .err _ => fail StatusInternalServerError "Failed to update post"
              | .ok _ =>
                .timeNow fun returned =>
                .done ⟨StatusOK, .post { merged with UpdatedAt := returned }⟩

/-- Handler `deleteBlogPost` (`DELETE /api/blog-post/:id`). -/
def deleteBlogPost (id : String) : Prog :=
  .deleteById id fun
    | .err _ => fail StatusInternalServerError "Failed to delete post"
    | .ok (.err _) => fail StatusNotFound "Post not found"
    | .ok (.ok rowsAffected) =>
      if rowsAffected = 0 then fail StatusNotFound "Post not found"
      else .done ⟨StatusOK, .message "Post deleted"⟩

/-- The routes registered in `main`. -/
inductive Route where
  | getBlogPosts
  | getBlogPost
  | createBlogPost
  | updateBlogPost
  | deleteBlogPost
deriving DecidableEq, Repr

/-- The handler registered for a route, given the path parameter `c.Params("id")`. -/
def Route.handler : Route → String → Prog
  | .getBlogPosts, _ => BlogCrud.getBlogPosts
  | .getBlogPost, id => BlogCrud.getBlogPost id
  | .createBlogPost, _ => BlogCrud.createBlogPost
  | .updateBlogPost, id => BlogCrud.updateBlogPost id
  | .deleteBlogPost, id => BlogCrud.deleteBlogPost id

/-- The error messages that occur as string literals in each handler. -/
def Route.errorMessages : Route → List String
  | .getBlogPosts => ["Failed to fetch posts", "Failed to parse post"]
  | .getBlogPost => ["Post not found", "Failed to fetch post"]
  | .createBlogPost => ["Invalid input", "Failed to create post"]
  | .updateBlogPost => ["ID is required", "Invalid input", "Post not found",
      "Failed to retrieve post", "Failed to update post"]
  | .deleteBlogPost => ["Failed to delete post", "Post not found"]

/-! ## Running a handler -/

/-- One interaction of a handler, with the answer it received. -/
inductive Event where
  | bodyParser (answer : Option BlogPost)
  | timeNow (answer : Time)
  | selectAll (answer : Res Rows)
  | selectById (id : String) (answer : Res BlogPost)
  | insertReturningId (title description body : String) (createdAt updatedAt : Time)
      (answer : Res Int)
  | updateById (title description body : String) (updatedAt : Time) (id : String)
      (answer : Res Unit)
  | deleteById (id : String) (answer : Res (Res Int))
deriving DecidableEq, Repr

/-- The surroundings of a handler: the clock and the store behind `db`, each answering
from a state of type `σ` and moving to the next state. -/
structure Env (σ : Type) where
  timeNow : σ → Time × σ
  selectAll : σ → Res Rows × σ
  selectById : String → σ → Res BlogPost × σ
  insertReturningId : String → String → String → Time → Time → σ → Res Int × σ
  updateById : String → String → String → Time → String → σ → Res Unit × σ
  deleteById : String → σ → Res (Res Int) × σ

/-- What a handler run produced: the response, the interactions in order, and the final
state of the surroundings. -/
structure Run (σ : Type) where
  resp : Response
  trace : List Event
  final : σ
deriving DecidableEq

/-- Record an interaction in front of the rest of a run. -/
def Run.after {σ : Type} (ev : Event) (r : Run σ) : Run σ :=
  { r with trace := ev :: r.trace }

/-- Execute a handler against the surroundings `env` from state `s`, for a request whose
body parses to `body` (`none`: the body does not parse). -/
def run {σ : Type} (env : Env σ) (body : Option BlogPost) : Prog → σ → Run σ
  | .done r, s => ⟨r, [], s⟩
  | .bodyParser k, s => (run env body (k body) s).after (.bodyParser body)
  | .timeNow k, s =>
    let a := env.timeNow s
    (run env body (k a.1) a.2).after (.timeNow a.1)
  | .selectAll k, s =>
    let a := env.selectAll s
    (run env body (k a.1) a.2).after (.selectAll a.1)
  | .selectById id k, s =>
    let a := env.selectById id s
    (run env body (k a.1) a.2).after (.selectById id a.1)
  | .insertReturningId t d b c u k, s =>
    let a := env.insertReturningId t d b c u s
    (run env body (k a.1) a.2).after (.insertReturningId t d b c u a.1)
  | .updateById t d b u id k, s =>
    let a := env.updateById t d b u id s
    (run env body (k a.1) a.2).after (.updateById t d b u id a.1)
  | .deleteById id k, s =>
    let a := env.deleteById id s
    (run env body (k a.1) a.2).after (.deleteById id a.1)

/-! ## The Post Store -/

/-- Modelled from the spec: the Post Store of section 4.2, the `blog_posts` table behind
`db`, which is an external database and not part of the source.  The state holds the rows
in insertion order, the next id the store will assign, and how many clock readings and
store statements have been served. -/
structure World where
  table : List BlogPost
  nextID : Int
  ticks : Nat
  calls : Nat
deriving DecidableEq, Repr

/-- Modelled from the spec: what the surroundings are free to do.  `clock` gives the
successive readings of `time.Now()`, `fails` tells which store statements (by position)
fail with a connectivity or query error, `detail` is the content of that error, and `readID` is the store reading the text
parameter `$1` / `$5` as a value of the `id` column (`none`: not a valid id). -/
structure StoreCfg where
  clock : Nat → Time
  fails : Nat → Bool
  detail : Nat → String
  readID : String → Option Int

/-- Modelled from the spec: the store before the first request, with an empty table. -/
def World.empty : World := ⟨[], 1, 0, 0⟩

/-- The state after one more store statement was served. -/
def World.served (w : World) : World := { w with calls := w.calls + 1 }

/-- Modelled from the spec: `UPDATE ... SET title, description, body, updated_at WHERE id`
applied to one row. -/
def updateRow (n : Int) (title description body : String) (updatedAt : Time)
    (r : BlogPost) : BlogPost :=
  if r.ID = n then
    { r with Title := title, Description := description, Body := body, UpdatedAt := updatedAt }
  else r

/-- Modelled from the spec: the Post Store of section 4.2 as surroundings of the handlers.
A failing statement has no effect on the table; `insert` assigns the next id, which is
never reused; `deleteById` reports the number of rows removed. -/
def storeEnv (cfg : StoreCfg) : Env World where
  timeNow w := (cfg.clock w.ticks, { w with ticks := w.ticks + 1 })
  selectAll w :=
    if cfg.fails w.calls then (.err (.other (cfg.detail w.calls)), w.served)
    else (.ok ⟨w.table.map .ok, none⟩, w.served)
  selectById id w :=
    if cfg.fails w.calls then (.err (.other (cfg.detail w.calls)), w.served)
    else match cfg.readID id with
      | none => (.err (.other "invalid id"), w.served)
      | some n =>
        match w.table.find? (fun r => r.ID = n) with
        | none => (.err .ErrNoRows, w.served)
        | some r => (.ok r, w.served)
  insertReturningId title description body createdAt updatedAt w :=
    if cfg.fails w.calls then (.err (.other (cfg.detail w.calls)), w.served)
    else (.ok w.nextID,
      { w.served with
        table := w.table ++ [⟨w.nextID, title, description, body, createdAt, updatedAt⟩]
        nextID := w.nextID + 1 })
  updateById title description body updatedAt id w :=
    if cfg.fails w.calls then (.err (.other (cfg.detail w.calls)), w.served)
    else match cfg.readID id with
      | none => (.err (.other "invalid id"), w.served)
      | some n =>
        (.ok (), { w.served with
          table := w.table.map (updateRow n title description body updatedAt) })
  deleteById id w :=
    if cfg.fails w.calls then (.err (.other (cfg.detail w.calls)), w.served)
    else match cfg.readID id with
      | none => (.err (.other "invalid id"), w.served)
      | some n =>
        (.ok (.ok ((w.table.filter (fun r => r.ID = n)).length)),
          { w.served with table := w.table.filter (fun r => r.ID ≠ n) })

/-- A request to one of the three handlers that write to the store. -/
inductive Request where
  | create (body : Option BlogPost)
  | update (id : String) (body : Option BlogPost)
  | delete (id : String)
deriving DecidableEq, Repr

/-- The store after a request was handled. -/
def serve (cfg : StoreCfg) (w : World) : Request → World
  | .create body => (run (storeEnv cfg) body createBlogPost w).final
  | .update id body => (run (storeEnv cfg) body (updateBlogPost id) w).final
  | .delete id => (run (storeEnv cfg) none (deleteBlogPost id) w).final

/-- The store after a sequence of requests was handled, one after the other. -/
def serveAll (cfg : StoreCfg) (w : World) (reqs : List Request) : World :=
  reqs.foldl (serve cfg) w

/-- Read a non-empty string of decimal digits as a number. -/
def readDecimal (s : String) : Option Int :=
  match s.data with
  | [] => none
  | cs => cs.foldl
      (fun acc c => acc.bind fun n =>
        if c.isDigit then some (n * 10 + ((c.toNat : Int) - 48)) else none)
      (some 0)

/-- A store that never fails, reads decimal ids, and whose clock shows `5, 7, 9, ...`. -/
def demoCfg : StoreCfg :=
  ⟨fun n => 5 + 2 * n, fun _ => false, fun _ => "connection refused", readDecimal⟩

/-- The merge policy in the words of the spec, for one field: an input value that is
present and non-empty overwrites the existing value, an absent or empty one retains it. -/
def specField (input existing : String) : String :=
  if input = "" then existing else input

/-- Modelled from the spec: a store whose cursor over `blog_posts` breaks after `n` rows:
`rows.Next()` then returns false and `rows.Err()` holds the error. -/
def cutCursorEnv (cfg : StoreCfg) (n : Nat) : Env World :=
  { storeEnv cfg with
    selectAll := fun w =>
      (.ok ⟨(w.table.take n).map .ok, some (.other "connection reset")⟩, w.served) }

/-- The request body `{"title":"A","description":"B","body":"C"}` as parsed into a
`BlogPost`: the fields absent from the body keep their zero values. -/
def demoBody : BlogPost := ⟨0, "A", "B", "C", 0, 0⟩

/-- The request body `{"title":"Z"}` as parsed into a `BlogPost`. -/
def demoPatch : BlogPost := ⟨0, "Z", "", "", 0, 0⟩

/-- The demo store after `demoBody` was posted once: one row, with id 1. -/
def demoWorld : World := serve demoCfg World.empty (.create (some demoBody))

/-! ## Relations used in the statements -/

/-- Two error values that differ at most in their content: both are `sql.ErrNoRows`, or
both are other failures. -/
def StoreErr.alike : StoreErr → StoreErr → Prop
  | .ErrNoRows, .ErrNoRows => True
  | .other _, .other _ => True
  | _, _ => False

/-- Two `(value, error)` results that differ at most in the content of the error. -/
def Res.alike {α : Type} (inner : α → α → Prop) : Res α → Res α → Prop
  | .ok a, .ok b => inner a b
  | .err e, .err f => e.alike f
  | _, _ => False

/-- Two cursors that differ at most in the content of the errors they deliver. -/
def Rows.alike (a b : Rows) : Prop :=
  List.Forall₂ (Res.alike Eq) a.scans b.scans ∧
    match a.iterErr, b.iterErr with
    | none, none => True
    | some e, some f => e.alike f
    | _, _ => False

/-- Two surroundings that differ at most in the content of the error values the store
returns: at every state and every call they move to the same next state and give answers
that are alike. -/
structure Env.alike {σ : Type} (env1 env2 : Env σ) : Prop where
  timeNow : ∀ s, env1.timeNow s = env2.timeNow s
  selectAll : ∀ s, Res.alike Rows.alike (env1.selectAll s).1 (env2.selectAll s).1 ∧
    (env1.selectAll s).2 = (env2.selectAll s).2
  selectById : ∀ id s, Res.alike Eq (env1.selectById id s).1 (env2.selectById id s).1 ∧
    (env1.selectById id s).2 = (env2.selectById id s).2
  insertReturningId : ∀ t d b c u s,
    Res.alike Eq (env1.insertReturningId t d b c u s).1 (env2.insertReturningId t d b c u s).1 ∧
    (env1.insertReturningId t d b c u s).2 = (env2.insertReturningId t d b c u s).2
  updateById : ∀ t d b u id s,
    Res.alike Eq (env1.updateById t d b u id s).1 (env2.updateById t d b u id s).1 ∧
    (env1.updateById t d b u id s).2 = (env2.updateById t d b u id s).2
  deleteById : ∀ id s,
    Res.alike (Res.alike Eq) (env1.deleteById id s).1 (env2.deleteById id s).1 ∧
    (env1.deleteById id s).2 = (env2.deleteById id s).2

/-- The store invariant carried through every request: each row was created no later
than it was last updated, and no later than the next reading of the clock. -/
def World.inv (cfg : StoreCfg) (w : World) : Prop :=
  ∀ r ∈ w.table, r.CreatedAt ≤ r.UpdatedAt ∧ r.CreatedAt ≤ cfg.clock w.ticks

/-- A store on which every statement fails, with `detail` as the content of the error. -/
def downCfg (detail : String) : StoreCfg :=
  ⟨fun n => 5 + 2 * n, fun _ => true, fun _ => detail, readDecimal⟩

/-! ## Properties of the handlers -/

/-- The three conditional assignments of `updateBlogPost`, field by field. -/
theorem mergeFields_eq (e p : BlogPost) :
    mergeFields e p = ⟨e.ID, specField p.Title e.Title, specField p.Description e.Description,
      specField p.Body e.Body, e.CreatedAt, e.UpdatedAt⟩ := by
  unfold mergeFields specField
  by_cases h1 : p.Title = "" <;> by_cases h2 : p.Description = "" <;>
    by_cases h3 : p.Body = "" <;> simp [h1, h2, h3]

/-- C1: merge policy of `updateBlogPost`.  For a non-empty id, a row `e` returned by the
fetch, a parsed input `p` and a succeeding update statement, the handler answers 200 with
a record, and writes to the store values, in which each of title, description and body is
`p`'s value when that is non-empty and `e`'s value when it is empty, while id and
created_at are `e`'s; with all three input fields empty the record is `e` except for
updated_at. -/
theorem updateBlogPost_merge_policy {σ : Type} (env : Env σ) (s s1 s2 s3 s4 : σ)
    (id : String) (p e : BlogPost) (t1 t2 : Time)
    (hid : id ≠ "")
    (hfetch : env.selectById id s = (.ok e, s1))
    (hnow1 : env.timeNow s1 = (t1, s2))
    (hupd : env.updateById (specField p.Title e.Title) (specField p.Description e.Description)
      (specField p.Body e.Body) t1 id s2 = (.ok (), s3))
    (hnow2 : env.timeNow s3 = (t2, s4)) :
    run env (some p) (updateBlogPost id) s =
      ⟨⟨200, .post ⟨e.ID, specField p.Title e.Title, specField p.Description e.Description,
          specField p.Body e.Body, e.CreatedAt, t2⟩⟩,
        [.bodyParser (some p), .selectById id (.ok e), .timeNow t1,
         .updateById (specField p.Title e.Title) (specField p.Description e.Description)
           (specField p.Body e.Body) t1 id (.ok ()), .timeNow t2], s4⟩ ∧
    (∀ f x : String, f ≠ "" → specField f x = f) ∧
    (∀ x : String, specField "" x = x) ∧
    (p.Title = "" → p.Description = "" → p.Body = "" →
      (run env (some p) (updateBlogPost id) s).resp = ⟨200, .post { e with UpdatedAt := t2 }⟩) := by
  have hrun : run env (some p) (updateBlogPost id) s =
      ⟨⟨200, .post ⟨e.ID, specField p.Title e.Title, specField p.Description e.Description,
          specField p.Body e.Body, e.CreatedAt, t2⟩⟩,
        [.bodyParser (some p), .selectById id (.ok e), .timeNow t1,
         .updateById (specField p.Title e.Title) (specField p.Description e.Description)
           (specField p.Body e.Body) t1 id (.ok ()), .timeNow t2], s4⟩ := by
    simp [updateBlogPost, hid, run, Run.after, hfetch, hnow1, mergeFields_eq, hupd, hnow2,
      StatusOK]
  refine ⟨hrun, ?_, ?_, ?_⟩
  · intro f x hf
    simp [specField, hf]
  · intro x
    simp [specField]
  · intro h1 h2 h3
    rw [hrun]
    simp [specField, h1, h2, h3]

/-- Witness of C1: the demo store holds the row `(1, "A", "B", "C", 5, 7)`, and the patch
`{"title":"Z"}` to id `"1"` answers with title `"Z"` and the other fields retained. -/
theorem updateBlogPost_merge_policy_witness :
    run (storeEnv demoCfg) (some demoPatch) (updateBlogPost "1") demoWorld =
      ⟨⟨200, .post ⟨1, "Z", "B", "C", 5, 11⟩⟩,
        [.bodyParser (some demoPatch), .selectById "1" (.ok ⟨1, "A", "B", "C", 5, 7⟩),
         .timeNow 9, .updateById "Z" "B" "C" 9 "1" (.ok ()), .timeNow 11],
        ⟨[⟨1, "Z", "B", "C", 5, 9⟩], 2, 4, 3⟩⟩ :=
  (updateBlogPost_merge_policy (storeEnv demoCfg) demoWorld
    ⟨[⟨1, "A", "B", "C", 5, 7⟩], 2, 2, 2⟩ ⟨[⟨1, "A", "B", "C", 5, 7⟩], 2, 3, 2⟩
    ⟨[⟨1, "Z", "B", "C", 5, 9⟩], 2, 3, 3⟩ ⟨[⟨1, "Z", "B", "C", 5, 9⟩], 2, 4, 3⟩
    "1" demoPatch ⟨1, "A", "B", "C", 5, 7⟩ 9 11 (by decide) rfl rfl rfl rfl).1

/-- C5: `updateBlogPost` with an empty id answers 400 "ID is required" for every request
body, parseable or not, without parsing the body and without any call to the store or
the clock: the run has no interaction at all and leaves the surroundings as they were. -/
theorem updateBlogPost_empty_id {σ : Type} (env : Env σ) (body : Option BlogPost) (s : σ) :
    run env body (updateBlogPost "") s = ⟨⟨400, .error "ID is required"⟩, [], s⟩ := by
  rfl

/-- C2 as stated fails: with a non-empty id and a store that holds no row for it, the
outcome is not always 404; a body that does not parse gets 400. -/
theorem updateBlogPost_notFound_regardless_of_body_fails :
    ¬ ∀ (env : Env World) (s : World) (id : String) (body : Option BlogPost),
      id ≠ "" → (env.selectById id s).1 = .err .ErrNoRows →
      (run env body (updateBlogPost id) s).resp.status = 404 := by
  intro h
  have h1 := h (storeEnv demoCfg) World.empty "1" none (by decide) (by decide)
  revert h1
  decide

/-- C2, amended: `updateBlogPost` parses the body before it fetches.  For a non-empty id,
a body that does not parse gets 400 "Invalid input" with no store call, whatever the store
holds; a body that parses gets 404 "Post not found" when the fetch reports no row; and a
404 is produced only for a body that parsed and a fetch that reported no row. -/
theorem updateBlogPost_parse_before_fetch {σ : Type} (env : Env σ) (s : σ) (id : String)
    (hid : id ≠ "") :
    run env none (updateBlogPost id) s = ⟨⟨400, .error "Invalid input"⟩, [.bodyParser none], s⟩ ∧
    (∀ p, (env.selectById id s).1 = .err .ErrNoRows →
      run env (some p) (updateBlogPost id) s =
        ⟨⟨404, .error "Post not found"⟩,
          [.bodyParser (some p), .selectById id (.err .ErrNoRows)], (env.selectById id s).2⟩) ∧
    (∀ body, (run env body (updateBlogPost id) s).resp.status = 404 →
      body.isSome = true ∧ (env.selectById id s).1 = .err .ErrNoRows) := by
  refine ⟨?_, ?_, ?_⟩
  · simp [updateBlogPost, hid, run, Run.after, fail, StatusBadRequest]
  · intro p hp
    simp [updateBlogPost, hid, run, Run.after, fail, StatusNotFound, hp]
  · intro body hst
    unfold updateBlogPost at hst
    cases body with
    | none => simp [hid, run, fail, Run.after, StatusBadRequest] at hst
    | some p =>
      simp only [hid, if_false, run, Run.after] at hst
      cases hf : (env.selectById id s).1 with
      | err e =>
        cases e with
        | ErrNoRows => simp
        | other d => simp [hf, run, fail, StatusInternalServerError] at hst
      | ok e =>
        simp only [hf, run, Run.after] at hst
        generalize (env.updateById _ _ _ _ _ _) = u at hst
        cases hu1 : u.1 with
        | err e2 => simp [hu1, run, fail, StatusInternalServerError] at hst
        | ok v => simp [hu1, run, Run.after, StatusOK] at hst

/-- Witness of C2, amended: on the empty demo store, id `"1"`. -/
theorem updateBlogPost_parse_before_fetch_witness :
    run (storeEnv demoCfg) none (updateBlogPost "1") World.empty =
      ⟨⟨400, .error "Invalid input"⟩, [.bodyParser none], World.empty⟩ ∧
    run (storeEnv demoCfg) (some demoPatch) (updateBlogPost "1") World.empty =
      ⟨⟨404, .error "Post not found"⟩,
        [.bodyParser (some demoPatch), .selectById "1" (.err .ErrNoRows)], ⟨[], 1, 0, 1⟩⟩ :=
  ⟨(updateBlogPost_parse_before_fetch (storeEnv demoCfg) World.empty "1" (by decide)).1,
   (updateBlogPost_parse_before_fetch (storeEnv demoCfg) World.empty "1" (by decide)).2.1
     demoPatch (by decide)⟩

/-- C3, the code at the failing input: posting `{"title":"A","description":"B","body":"C"}`
to the empty demo store inserts the row with created_at 5 and updated_at 7, and answers
201 with id 1 and the input's three fields, but with created_at and updated_at still at
the zero value of `time.Time`, not at the timestamps passed to the insert. -/
theorem createBlogPost_response_timestamps_unset :
    run (storeEnv demoCfg) (some demoBody) createBlogPost World.empty =
      ⟨⟨201, .post ⟨1, "A", "B", "C", 0, 0⟩⟩,
        [.bodyParser (some demoBody), .timeNow 5, .timeNow 7,
         .insertReturningId "A" "B" "C" 5 7 (.ok 1)],
        ⟨[⟨1, "A", "B", "C", 5, 7⟩], 2, 2, 1⟩⟩ := by
  decide

/-- The delete statement of the store answers a failure or an affected-row count: after a
statement that succeeded, the count is always reported. -/
theorem storeEnv_delete_reports_count (cfg : StoreCfg) (id : String) (w : World)
    (e : StoreErr) : ((storeEnv cfg).deleteById id w).1 ≠ .ok (.err e) := by
  simp only [storeEnv]
  cases cfg.fails w.calls
  · cases cfg.readID id <;> simp
  · simp

/-- C4: the outcome of `deleteBlogPost` is decided by the delete statement's result alone,
the statement being the only interaction of the handler (no prior existence query).  With
a store whose delete statement answers a failure or an affected-row count (section 4.2),
the outcome is 404 "Post not found" if and only if the statement succeeded with zero
affected rows; it is 500 "Failed to delete post" if and only if the store failed; and it is
200 with the message "Post deleted" if and only if the statement succeeded with a non-zero
count, in particular with one affected row. -/
theorem deleteBlogPost_outcome {σ : Type} (env : Env σ) (body : Option BlogPost)
    (id : String) (s : σ)
    (hcount : ∀ e, (env.deleteById id s).1 ≠ .ok (.err e)) :
    (run env body (deleteBlogPost id) s).trace = [.deleteById id (env.deleteById id s).1] ∧
    ((run env body (deleteBlogPost id) s).resp.status = 404 ↔
      (env.deleteById id s).1 = .ok (.ok 0)) ∧
    ((run env body (deleteBlogPost id) s).resp = ⟨404, .error "Post not found"⟩ ↔
      (env.deleteById id s).1 = .ok (.ok 0)) ∧
    ((run env body (deleteBlogPost id) s).resp = ⟨500, .error "Failed to delete post"⟩ ↔
      ∃ e, (env.deleteById id s).1 = .err e) ∧
    ((run env body (deleteBlogPost id) s).resp = ⟨200, .message "Post deleted"⟩ ↔
      ∃ n, n ≠ 0 ∧ (env.deleteById id s).1 = .ok (.ok n)) ∧
    ((env.deleteById id s).1 = .ok (.ok 1) →
      (run env body (deleteBlogPost id) s).resp = ⟨200, .message "Post deleted"⟩) := by
  unfold deleteBlogPost
  simp only [run, Run.after]
  cases h : (env.deleteById id s).1 with
  | err e => simp [run, fail, StatusInternalServerError]
  | ok a =>
    cases a with
    | err e => exact absurd h (hcount e)
    | ok n =>
      by_cases hn : n = 0
      · simp [run, fail, StatusNotFound, hn]
      · simp [run, fail, StatusOK, hn]

/-- Witness of C4: on the demo store, which holds one row with id 1, the delete of `"1"`
affects one row and answers 200 "Post deleted", and the delete of `"2"` affects no row and
answers 404 "Post not found"; in both runs the delete statement is the only interaction. -/
theorem deleteBlogPost_outcome_witness :
    run (storeEnv demoCfg) none (deleteBlogPost "1") demoWorld =
      ⟨⟨200, .message "Post deleted"⟩, [.deleteById "1" (.ok (.ok 1))], ⟨[], 2, 2, 2⟩⟩ ∧
    run (storeEnv demoCfg) none (deleteBlogPost "2") demoWorld =
      ⟨⟨404, .error "Post not found"⟩, [.deleteById "2" (.ok (.ok 0))],
        ⟨[⟨1, "A", "B", "C", 5, 7⟩], 2, 2, 2⟩⟩ ∧
    (run (storeEnv demoCfg) none (deleteBlogPost "1") demoWorld).resp =
      ⟨200, .message "Post deleted"⟩ ∧
    (run (storeEnv demoCfg) none (deleteBlogPost "2") demoWorld).resp.status = 404 :=
  ⟨by decide, by decide,
   (deleteBlogPost_outcome (storeEnv demoCfg) none "1" demoWorld
     (storeEnv_delete_reports_count demoCfg "1" demoWorld)).2.2.2.2.2 (by decide),
   (deleteBlogPost_outcome (storeEnv demoCfg) none "2" demoWorld
     (storeEnv_delete_reports_count demoCfg "2" demoWorld)).2.1.mpr (by decide)⟩

/-- C7, the code at the failing input: the table holds two rows, the cursor delivers the
first and then breaks (`rows.Next()` returns false, `rows.Err()` is set); `getBlogPosts`
answers 200 with the first row only. -/
theorem getBlogPosts_truncated_on_iteration_error :
    (serve demoCfg demoWorld (.create (some demoPatch))).table =
      [⟨1, "A", "B", "C", 5, 7⟩, ⟨2, "Z", "", "", 9, 11⟩] ∧
    run (cutCursorEnv demoCfg 1) none getBlogPosts
        (serve demoCfg demoWorld (.create (some demoPatch))) =
      ⟨⟨200, .posts [⟨1, "A", "B", "C", 5, 7⟩]⟩,
        [.selectAll (.ok ⟨[.ok ⟨1, "A", "B", "C", 5, 7⟩], some (.other "connection reset")⟩)],
        ⟨[⟨1, "A", "B", "C", 5, 7⟩, ⟨2, "Z", "", "", 9, 11⟩], 3, 4, 3⟩⟩ := by
  decide

/-- C10 as stated fails: on the demo store the update statement carries updated_at 9
while the returned record carries updated_at 11, the next reading of the clock. -/
theorem updateBlogPost_returned_updatedAt_differs :
    ¬ ∀ (env : Env World) (s : World) (id : String) (body : Option BlogPost) (r : BlogPost)
        (title description text : String) (written : Time) (answer : Res Unit),
      (run env body (updateBlogPost id) s).resp = ⟨200, .post r⟩ →
      Event.updateById title description text written id answer ∈
        (run env body (updateBlogPost id) s).trace →
      r.UpdatedAt = written := by
  intro h
  have h1 := h (storeEnv demoCfg) demoWorld "1" (some demoPatch) ⟨1, "Z", "B", "C", 5, 11⟩
    "Z" "B" "C" 9 (.ok ()) (by decide) (by decide)
  revert h1
  decide

/-- C10, amended: `updateBlogPost` reads the clock twice.  In every successful call (status
200) the interactions are: parse, fetch, a first clock reading `t1`, the update statement
carrying `t1` as updated_at, and a second clock reading `t2` taken after the statement
returned; the returned record carries `t2`.  The returned and the written updated_at are
therefore equal exactly when the two readings coincide. -/
theorem updateBlogPost_two_clock_readings {σ : Type} (env : Env σ) (body : Option BlogPost)
    (id : String) (s : σ)
    (hok : (run env body (updateBlogPost id) s).resp.status = 200) :
    ∃ (p e m : BlogPost) (t1 t2 : Time),
      (run env body (updateBlogPost id) s).trace =
        [.bodyParser (some p), .selectById id (.ok e), .timeNow t1,
         .updateById m.Title m.Description m.Body t1 id (.ok ()), .timeNow t2] ∧
      (run env body (updateBlogPost id) s).resp = ⟨200, .post { m with UpdatedAt := t2 }⟩ := by
  unfold updateBlogPost at hok ⊢
  by_cases hid : id = ""
  · simp [hid, run, fail, StatusBadRequest] at hok
  · cases body with
    | none => simp [hid, run, fail, Run.after, StatusBadRequest] at hok
    | some p =>
      simp only [hid, if_false, run, Run.after] at hok ⊢
      cases hf : (env.selectById id s).1 with
      | err e =>
        cases e <;> simp [hf, run, fail, StatusNotFound, StatusInternalServerError] at hok
      | ok e =>
        simp only [hf, run, Run.after] at hok ⊢
        generalize (env.updateById _ _ _ _ _ _) = u at hok ⊢
        cases hu1 : u.1 with
        | err e2 => simp [hu1, run, fail, StatusInternalServerError] at hok
        | ok v =>
          simp only [hu1, run, Run.after]
          exact ⟨p, e, mergeFields e p, _, _, rfl, rfl⟩

/-- Witness of C10, amended: the patch of the demo store succeeds. -/
theorem updateBlogPost_two_clock_readings_witness :
    ∃ (p e m : BlogPost) (t1 t2 : Time),
      (run (storeEnv demoCfg) (some demoPatch) (updateBlogPost "1") demoWorld).trace =
        [.bodyParser (some p), .selectById "1" (.ok e), .timeNow t1,
         .updateById m.Title m.Description m.Body t1 "1" (.ok ()), .timeNow t2] ∧
      (run (storeEnv demoCfg) (some demoPatch) (updateBlogPost "1") demoWorld).resp =
        ⟨200, .post { m with UpdatedAt := t2 }⟩ :=
  updateBlogPost_two_clock_readings (storeEnv demoCfg) (some demoPatch) "1" demoWorld
    (by decide)

/-- C6 as stated fails: on the demo store, whose clock advances between two readings,
the insert receives created_at 5 and updated_at 7. -/
theorem createBlogPost_insert_timestamps_differ :
    ¬ ∀ (env : Env World) (s : World) (p : BlogPost) (title description text : String)
        (createdAt updatedAt : Time) (answer : Res Int),
      Event.insertReturningId title description text createdAt updatedAt answer ∈
        (run env (some p) createBlogPost s).trace →
      createdAt = updatedAt := by
  intro h
  have h1 := h (storeEnv demoCfg) World.empty demoBody "A" "B" "C" 5 7 (.ok 1) (by decide)
  revert h1
  decide

/-- C6, amended: `createBlogPost` reads the clock twice.  For every parseable input the
interactions are: parse, a first clock reading, a second clock reading, and the insert
carrying the input's title, description and body with the first reading as created_at and
the second as updated_at.  On the store, when the insert and the following fetch succeed,
a Get of the returned id immediately afterwards yields the row with the input's three
fields, created_at the first reading and updated_at the second; so created_at and
updated_at are equal exactly when the two readings coincide, and created_at is at most
updated_at when the second reading is not earlier than the first. -/
theorem createBlogPost_then_get (cfg : StoreCfg) (w : World) (p : BlogPost) (idStr : String)
    (hinsert : cfg.fails w.calls = false)
    (hfetch : cfg.fails (w.calls + 1) = false)
    (hfresh : ∀ r ∈ w.table, r.ID ≠ w.nextID)
    (hid : cfg.readID idStr = some w.nextID) :
    (∀ (σ : Type) (env : Env σ) (s : σ),
      (run env (some p) createBlogPost s).trace =
        [.bodyParser (some p), .timeNow (env.timeNow s).1,
         .timeNow (env.timeNow (env.timeNow s).2).1,
         .insertReturningId p.Title p.Description p.Body (env.timeNow s).1
           (env.timeNow (env.timeNow s).2).1
           (env.insertReturningId p.Title p.Description p.Body (env.timeNow s).1
             (env.timeNow (env.timeNow s).2).1 (env.timeNow (env.timeNow s).2).2).1]) ∧
    (run (storeEnv cfg) (some p) createBlogPost w).resp =
      ⟨201, .post { p with ID := w.nextID }⟩ ∧
    (run (storeEnv cfg) none (getBlogPost idStr)
        (run (storeEnv cfg) (some p) createBlogPost w).final).resp =
      ⟨200, .post ⟨w.nextID, p.Title, p.Description, p.Body,
        cfg.clock w.ticks, cfg.clock (w.ticks + 1)⟩⟩ := by
  refine ⟨?_, ?_, ?_⟩
  · intro σ env s
    simp only [createBlogPost, run, Run.after]
    generalize (env.insertReturningId _ _ _ _ _ _) = a
    cases ha : a.1 <;> simp [run, fail]
  · simp [createBlogPost, run, Run.after, storeEnv, World.served, hinsert, StatusCreated]
  · have hnone : List.find? (fun r => decide (r.ID = w.nextID)) w.table = none := by
      rw [List.find?_eq_none]
      intro r hr
      simpa using hfresh r hr
    simp [createBlogPost, getBlogPost, run, Run.after, storeEnv, World.served, hinsert, hfetch,
      hid, List.find?_append, hnone, StatusOK]

/-- Witness of C6, amended: posting `demoBody` to the empty demo store, then Get of `"1"`. -/
theorem createBlogPost_then_get_witness :
    (run (storeEnv demoCfg) none (getBlogPost "1")
        (run (storeEnv demoCfg) (some demoBody) createBlogPost World.empty).final).resp =
      ⟨200, .post ⟨1, "A", "B", "C", 5, 7⟩⟩ :=
  (createBlogPost_then_get demoCfg World.empty demoBody "1" (by decide) (by decide)
    (by decide) (by decide)).2.2

/-! ## Error responses -/

/-- The scan loop gives the same response on two cursors that differ at most in the
content of the scan errors. -/
theorem scanLoop_alike (xs ys : List (Res BlogPost)) (h : List.Forall₂ (Res.alike Eq) xs ys)
    (acc : List BlogPost) : scanLoop xs acc = scanLoop ys acc := by
  induction h generalizing acc with
  | nil => rfl
  | @cons a b l1 l2 hab _ ih =>
    cases a <;> cases b <;> simp [Res.alike] at hab
    · subst hab
      simp [scanLoop, ih]
    · simp [scanLoop]

/-- The scan loop answers 200 with a list of posts, or 500 "Failed to parse post". -/
theorem scanLoop_shape (xs : List (Res BlogPost)) (acc : List BlogPost) :
    (∃ ps, scanLoop xs acc = ⟨200, .posts ps⟩) ∨
      scanLoop xs acc = ⟨500, .error "Failed to parse post"⟩ := by
  induction xs generalizing acc with
  | nil => exact Or.inl ⟨acc, rfl⟩
  | cons a l ih =>
    cases a with
    | ok p => simpa [scanLoop] using ih (acc ++ [p])
    | err e => exact Or.inr rfl

/-- Every handler gives the same response in two surroundings that differ at most in the
content of the errors the store returns. -/
theorem handler_resp_alike {σ : Type} (env1 env2 : Env σ) (h : Env.alike env1 env2)
    (route : Route) (id : String) (body : Option BlogPost) (s : σ) :
    (run env1 body (route.handler id) s).resp = (run env2 body (route.handler id) s).resp := by
  cases route with
  | getBlogPosts =>
    obtain ⟨ha, -⟩ := h.selectAll s
    simp only [Route.handler, BlogCrud.getBlogPosts, run, Run.after]
    cases h1 : (env1.selectAll s).1 <;> cases h2 : (env2.selectAll s).1 <;>
      simp [h1, h2, Res.alike, Rows.alike] at ha
    · simp [run]
      exact scanLoop_alike _ _ ha.1 []
    · simp [run, fail]
  | getBlogPost =>
    obtain ⟨ha, -⟩ := h.selectById id s
    simp only [Route.handler, BlogCrud.getBlogPost, run, Run.after]
    cases h1 : (env1.selectById id s).1 <;> cases h2 : (env2.selectById id s).1 <;>
      simp [h1, h2, Res.alike] at ha
    · simp [run, ha]
    · rename_i e1 e2
      cases e1 <;> cases e2 <;> simp [StoreErr.alike] at ha <;> simp [run, fail]
  | createBlogPost =>
    simp only [Route.handler, BlogCrud.createBlogPost, run, Run.after]
    cases body with
    | none => simp [run, fail]
    | some p =>
      simp only [run, Run.after, h.timeNow]
      obtain ⟨ha, -⟩ := h.insertReturningId p.Title p.Description p.Body (env2.timeNow s).1
        (env2.timeNow (env2.timeNow s).2).1 (env2.timeNow (env2.timeNow s).2).2
      revert ha
      generalize (env1.insertReturningId _ _ _ _ _ _) = a1
      generalize (env2.insertReturningId _ _ _ _ _ _) = a2
      intro ha
      cases h1 : a1.1 <;> cases h2 : a2.1 <;> simp [h1, h2, Res.alike] at ha
      · simp [run, ha]
      · simp [run, fail]
  | updateBlogPost =>
    simp only [Route.handler, BlogCrud.updateBlogPost]
    by_cases hid : id = ""
    · simp [hid, run, fail]
    · simp only [hid, if_false, run, Run.after]
      cases body with
      | none => simp [run, fail]
      | some p =>
        obtain ⟨ha, hs⟩ := h.selectById id s
        simp only [run, Run.after, hs]
        cases h1 : (env1.selectById id s).1 <;> cases h2 : (env2.selectById id s).1 <;>
          simp [h1, h2, Res.alike] at ha
        · subst ha
          rename_i e
          simp only [run, Run.after, h.timeNow]
          obtain ⟨hb, hs2⟩ := h.updateById (mergeFields e p).Title (mergeFields e p).Description
            (mergeFields e p).Body (env2.timeNow (env2.selectById id s).2).1 id
            (env2.timeNow (env2.selectById id s).2).2
          rw [hs2]
          revert hb
          generalize (env1.updateById _ _ _ _ _ _).1 = a1
          generalize (env2.updateById _ _ _ _ _ _) = a2
          intro hb
          cases a1 <;> cases h4 : a2.1 <;> simp [h4, Res.alike] at hb
          · simp [run, Run.after, h.timeNow]
          · simp [run, fail]
        · rename_i e1 e2
          cases e1 <;> cases e2 <;> simp [StoreErr.alike] at ha <;> simp [run, fail]
  | deleteBlogPost =>
    obtain ⟨ha, -⟩ := h.deleteById id s
    simp only [Route.handler, BlogCrud.deleteBlogPost, run, Run.after]
    cases h1 : (env1.deleteById id s).1 <;> cases h2 : (env2.deleteById id s).1 <;>
      simp [h1, h2, Res.alike] at ha
    · rename_i a1 a2
      cases a1 <;> cases a2 <;> simp [Res.alike] at ha
      · subst ha
        rename_i n
        by_cases hn : n = 0 <;> simp [run, fail, hn]
      · simp [run, fail]
    · simp [run, fail]

/-- Every response of a handler has status 200 or 201, or has status 400, 404 or 500 and
a body with the single key "error" whose message is one of the string literals of the handler. -/
theorem handler_resp_shape {σ : Type} (env : Env σ) (route : Route) (id : String)
    (body : Option BlogPost) (s : σ) :
    (run env body (route.handler id) s).resp.status ∈ [200, 201] ∨
    ((run env body (route.handler id) s).resp.status ∈ [400, 404, 500] ∧
      ∃ msg ∈ route.errorMessages, (run env body (route.handler id) s).resp.body = .error msg) := by
  cases route with
  | getBlogPosts =>
    simp only [Route.handler, BlogCrud.getBlogPosts, run, Run.after]
    cases h1 : (env.selectAll s).1 with
    | err e => simp [run, fail, Route.errorMessages, StatusInternalServerError]
    | ok rows =>
      rcases scanLoop_shape rows.scans [] with ⟨ps, hps⟩ | hps <;>
        simp [run, hps, Route.errorMessages]
  | getBlogPost =>
    simp only [Route.handler, BlogCrud.getBlogPost, run, Run.after]
    cases h1 : (env.selectById id s).1 with
    | err e =>
      cases e <;>
        simp [run, fail, Route.errorMessages, StatusInternalServerError, StatusNotFound]
    | ok r => simp [run, StatusOK]
  | createBlogPost =>
    simp only [Route.handler, BlogCrud.createBlogPost, run, Run.after]
    cases body with
    | none => simp [run, fail, Route.errorMessages, StatusBadRequest]
    | some p =>
      simp only [run, Run.after]
      generalize (env.insertReturningId _ _ _ _ _ _) = a
      cases h1 : a.1 <;>
        simp [run, fail, Route.errorMessages, StatusInternalServerError, StatusCreated]
  | updateBlogPost =>
    simp only [Route.handler, BlogCrud.updateBlogPost]
    by_cases hid : id = ""
    · simp [hid, run, fail, Route.errorMessages, StatusBadRequest]
    · simp only [hid, if_false, run, Run.after]
      cases body with
      | none => simp [run, fail, Route.errorMessages, StatusBadRequest]
      | some p =>
        simp only [run, Run.after]
        cases h1 : (env.selectById id s).1 with
        | err e =>
          cases e <;>
            simp [run, fail, Route.errorMessages, StatusInternalServerError, StatusNotFound]
        | ok e =>
          simp only [run, Run.after]
          generalize (env.updateById _ _ _ _ _ _) = a
          cases h2 : a.1 <;>
            simp [run, Run.after, fail, Route.errorMessages, StatusInternalServerError, StatusOK]
  | deleteBlogPost =>
    simp only [Route.handler, BlogCrud.deleteBlogPost, run, Run.after]
    cases h1 : (env.deleteById id s).1 with
    | err e => simp [run, fail, Route.errorMessages, StatusInternalServerError]
    | ok a =>
      cases a with
      | err e => simp [run, fail, Route.errorMessages, StatusNotFound]
      | ok n =>
        by_cases hn : n = 0 <;>
          simp [run, fail, Route.errorMessages, StatusNotFound, StatusOK, hn]

/-- A result is alike itself. -/
theorem Res.alike_refl {α : Type} (inner : α → α → Prop) (hinner : ∀ a, inner a a)
    (x : Res α) : Res.alike inner x x := by
  cases x with
  | ok a => exact hinner a
  | err e => cases e <;> simp [Res.alike, StoreErr.alike]

/-- A cursor is alike itself. -/
theorem Rows.alike_same (r : Rows) : Rows.alike r r := by
  refine ⟨List.forall₂_same.mpr fun x _ => Res.alike_refl _ (fun _ => rfl) x, ?_⟩
  cases r.iterErr with
  | none => trivial
  | some e => cases e <;> simp [StoreErr.alike]

/-- Two stores that differ only in the content of the errors they return are alike. -/
theorem storeEnv_alike (cfg1 cfg2 : StoreCfg) (hclock : cfg1.clock = cfg2.clock)
    (hfails : cfg1.fails = cfg2.fails) (hread : cfg1.readID = cfg2.readID) :
    Env.alike (storeEnv cfg1) (storeEnv cfg2) := by
  constructor
  · intro s
    simp [storeEnv, hclock]
  · intro s
    cases hf : cfg2.fails s.calls
    · simp only [storeEnv, hfails, hf, Bool.false_eq_true, if_false]
      exact ⟨Res.alike_refl _ Rows.alike_same _, trivial⟩
    · simp [storeEnv, hfails, hf, Res.alike, StoreErr.alike]
  · intro id s
    cases hf : cfg2.fails s.calls
    · simp only [storeEnv, hfails, hf, hread, Bool.false_eq_true, if_false]
      exact ⟨Res.alike_refl _ (fun _ => rfl) _, trivial⟩
    · simp [storeEnv, hfails, hf, Res.alike, StoreErr.alike]
  · intro t d b c u s
    cases hf : cfg2.fails s.calls
    · simp only [storeEnv, hfails, hf, Bool.false_eq_true, if_false]
      exact ⟨Res.alike_refl _ (fun _ => rfl) _, trivial⟩
    · simp [storeEnv, hfails, hf, Res.alike, StoreErr.alike]
  · intro t d b u id s
    cases hf : cfg2.fails s.calls
    · simp only [storeEnv, hfails, hf, hread, Bool.false_eq_true, if_false]
      exact ⟨Res.alike_refl _ (fun _ => rfl) _, trivial⟩
    · simp [storeEnv, hfails, hf, Res.alike, StoreErr.alike]
  · intro id s
    cases hf : cfg2.fails s.calls
    · simp only [storeEnv, hfails, hf, hread, Bool.false_eq_true, if_false]
      exact ⟨Res.alike_refl _ (Res.alike_refl _ (fun _ => rfl)) _, trivial⟩
    · simp [storeEnv, hfails, hf, Res.alike, StoreErr.alike]

/-- C8: no store detail leaks into a response.  For each of the five handlers, two runs in
surroundings that differ only in the content of the error values the store returns (the
errors being of the same kind at every call: both `sql.ErrNoRows`, or both other failures)
give the same status and body; and every response of every handler that is not a success
(200 or 201) has status 400, 404 or 500 and the body `{"error": msg}` with `msg` one of the
fixed string literals of that handler. -/
theorem no_store_detail_in_response {σ : Type} (env1 env2 : Env σ)
    (halike : Env.alike env1 env2) (route : Route) (id : String) (body : Option BlogPost)
    (s : σ) :
    (run env1 body (route.handler id) s).resp = (run env2 body (route.handler id) s).resp ∧
    ((run env1 body (route.handler id) s).resp.status ∈ [200, 201] ∨
      ((run env1 body (route.handler id) s).resp.status ∈ [400, 404, 500] ∧
        ∃ msg ∈ route.errorMessages,
          (run env1 body (route.handler id) s).resp.body = .error msg)) :=
  ⟨handler_resp_alike env1 env2 halike route id body s, handler_resp_shape env1 route id body s⟩

/-- Witness of C8: a store that is down answers Get of `"1"` with 500 "Failed to fetch
post", whether the error says "connection refused" or names the database user. -/
theorem no_store_detail_in_response_witness :
    Env.alike (storeEnv (downCfg "connection refused"))
      (storeEnv (downCfg "password authentication failed for user postgres")) ∧
    (run (storeEnv (downCfg "connection refused")) none
        (Route.getBlogPost.handler "1") World.empty).resp =
      (run (storeEnv (downCfg "password authentication failed for user postgres")) none
        (Route.getBlogPost.handler "1") World.empty).resp ∧
    (run (storeEnv (downCfg "connection refused")) none
        (Route.getBlogPost.handler "1") World.empty).resp =
      ⟨500, .error "Failed to fetch post"⟩ :=
  ⟨storeEnv_alike _ _ rfl rfl rfl,
   (no_store_detail_in_response (storeEnv (downCfg "connection refused"))
     (storeEnv (downCfg "password authentication failed for user postgres"))
     (storeEnv_alike _ _ rfl rfl rfl) .getBlogPost "1" none World.empty).1,
   by decide⟩

/-! ## The store invariant -/

/-- The update statement leaves id and created_at of a row as they are, and leaves
updated_at or sets it to the value passed. -/
theorem updateRow_keeps (n : Int) (t d b : String) (u : Time) (r : BlogPost) :
    (updateRow n t d b u r).ID = r.ID ∧ (updateRow n t d b u r).CreatedAt = r.CreatedAt ∧
      ((updateRow n t d b u r).UpdatedAt = r.UpdatedAt ∨ (updateRow n t d b u r).UpdatedAt = u) := by
  unfold updateRow
  split <;> simp

/-- The store after `createBlogPost`: unchanged, or two clock readings and a failed
insert later, or with one new row that carries the two readings. -/
theorem create_final (cfg : StoreCfg) (w : World) (body : Option BlogPost) :
    (run (storeEnv cfg) body createBlogPost w).final = w ∨
    (run (storeEnv cfg) body createBlogPost w).final =
      { w with ticks := w.ticks + 2, calls := w.calls + 1 } ∨
    ∃ t d b, (run (storeEnv cfg) body createBlogPost w).final =
      { table := w.table ++ [⟨w.nextID, t, d, b, cfg.clock w.ticks, cfg.clock (w.ticks + 1)⟩],
        nextID := w.nextID + 1, ticks := w.ticks + 2, calls := w.calls + 1 } := by
  cases body with
  | none => exact Or.inl rfl
  | some p =>
    by_cases hf : cfg.fails w.calls
    · right; left
      simp [createBlogPost, run, Run.after, storeEnv, World.served, hf, fail]
    · right; right
      exact ⟨p.Title, p.Description, p.Body, by
        simp [createBlogPost, run, Run.after, storeEnv, World.served, hf]⟩

/-- The store after `updateBlogPost`: at most two clock readings later, with the table
unchanged or with the update statement applied, carrying the first reading. -/
theorem update_final (cfg : StoreCfg) (w : World) (id : String) (body : Option BlogPost) :
    ∃ k c, k ≤ 2 ∧
      ((run (storeEnv cfg) body (updateBlogPost id) w).final =
          { w with ticks := w.ticks + k, calls := c } ∨
        ∃ n t d b, (run (storeEnv cfg) body (updateBlogPost id) w).final =
          { w with table := w.table.map (updateRow n t d b (cfg.clock w.ticks)),
                   ticks := w.ticks + k, calls := c }) := by
  unfold updateBlogPost
  by_cases hid : id = ""
  · exact ⟨0, w.calls, by omega, Or.inl (by simp [hid, run, fail])⟩
  · cases body with
    | none => exact ⟨0, w.calls, by omega, Or.inl (by simp [hid, run, fail, Run.after])⟩
    | some p =>
      simp only [hid, if_false, run, Run.after]
      cases h1 : ((storeEnv cfg).selectById id w).1 with
      | err e =>
        refine ⟨0, w.calls + 1, by omega, Or.inl ?_⟩
        have hs : ((storeEnv cfg).selectById id w).2 = w.served := by
          simp only [storeEnv]
          split
          · rfl
          · split
            · rfl
            · split <;> rfl
        cases e <;> simp [run, fail, hs, World.served]
      | ok e =>
        have hs : ((storeEnv cfg).selectById id w).2 = w.served := by
          simp only [storeEnv]
          split
          · rfl
          · split
            · rfl
            · split <;> rfl
        simp only [run, Run.after, hs]
        by_cases hf : cfg.fails (w.calls + 1)
        · refine ⟨1, w.calls + 2, by omega, Or.inl ?_⟩
          simp [storeEnv, World.served, hf, run, fail]
        · cases hr : cfg.readID id with
          | none =>
            refine ⟨1, w.calls + 2, by omega, Or.inl ?_⟩
            simp [storeEnv, World.served, hf, hr, run, fail]
          | some n =>
            refine ⟨2, w.calls + 2, by omega, Or.inr ⟨n, (mergeFields e p).Title,
              (mergeFields e p).Description, (mergeFields e p).Body, ?_⟩⟩
            simp [storeEnv, World.served, hf, hr, run, Run.after]

/-- The store after `deleteBlogPost`: the table unchanged or with the rows of one id removed. -/
theorem delete_final (cfg : StoreCfg) (w : World) (id : String) (body : Option BlogPost) :
    ∃ c, (run (storeEnv cfg) body (deleteBlogPost id) w).final = { w with calls := c } ∨
      ∃ n : Int, (run (storeEnv cfg) body (deleteBlogPost id) w).final =
        { w with table := w.table.filter (fun r => r.ID ≠ n), calls := c } := by
  refine ⟨w.calls + 1, ?_⟩
  simp only [deleteBlogPost, run, Run.after]
  by_cases hf : cfg.fails w.calls
  · left
    simp [storeEnv, World.served, hf, run, fail]
  · cases hr : cfg.readID id with
    | none =>
      left
      simp [storeEnv, World.served, hf, hr, run, fail]
    | some n =>
      right
      refine ⟨n, ?_⟩
      by_cases h0 : (List.filter (fun r => decide (r.ID = n)) w.table).length = 0 <;>
        simp [storeEnv, World.served, hf, hr, run, fail, h0]

/-- The store invariant is kept by every request, when the clock does not go back. -/
theorem serve_inv (cfg : StoreCfg) (hclock : ∀ i j, i ≤ j → cfg.clock i ≤ cfg.clock j)
    (w : World) (req : Request) (hw : w.inv cfg) : (serve cfg w req).inv cfg := by
  cases req with
  | create body =>
    rcases create_final cfg w body with h | h | ⟨t, d, b, h⟩
    · simpa [serve, h] using hw
    · simp only [serve, h]
      intro r hr
      exact ⟨(hw r hr).1, le_trans (hw r hr).2 (hclock _ _ (by simp))⟩
    · simp only [serve, h]
      intro r hr
      simp only [List.mem_append, List.mem_singleton] at hr
      rcases hr with hr | hr
      · exact ⟨(hw r hr).1, le_trans (hw r hr).2 (hclock _ _ (by simp))⟩
      · subst hr
        exact ⟨hclock _ _ (by simp), hclock _ _ (by simp)⟩
  | update id body =>
    obtain ⟨k, c, -, h | ⟨n, t, d, b, h⟩⟩ := update_final cfg w id body
    · simp only [serve, h]
      intro r hr
      exact ⟨(hw r hr).1, le_trans (hw r hr).2 (hclock _ _ (by simp))⟩
    · simp only [serve, h]
      intro r hr
      simp only [List.mem_map] at hr
      obtain ⟨r0, hr0, rfl⟩ := hr
      obtain ⟨-, hc, hu⟩ := updateRow_keeps n t d b (cfg.clock w.ticks) r0
      rw [hc]
      refine ⟨?_, le_trans (hw r0 hr0).2 (hclock _ _ (by simp))⟩
      rcases hu with hu | hu <;> rw [hu]
      · exact (hw r0 hr0).1
      · exact (hw r0 hr0).2
  | delete id =>
    obtain ⟨c, h | ⟨n, h⟩⟩ := delete_final cfg w id none
    · simpa [serve, h] using hw
    · simp only [serve, h]
      intro r hr
      exact hw r (List.mem_of_mem_filter hr)

/-- The store invariant is kept by every sequence of requests, when the clock does not go back. -/
theorem serveAll_inv (cfg : StoreCfg) (hclock : ∀ i j, i ≤ j → cfg.clock i ≤ cfg.clock j)
    (reqs : List Request) (w : World) (hw : w.inv cfg) : (serveAll cfg w reqs).inv cfg := by
  induction reqs generalizing w with
  | nil => exact hw
  | cons req rest ih => exact ih (serve cfg w req) (serve_inv cfg hclock w req hw)

/-- C9: store invariant `updated_at >= created_at`.  Starting from the empty table, with
successive clock readings that are non-decreasing, after any sequence of `createBlogPost`,
`updateBlogPost` and `deleteBlogPost` calls (with any bodies, ids and store failures) every
row of the store has updated_at >= created_at; and `updateBlogPost`, run on any store,
leaves the id and created_at of every row as they were. -/
theorem store_updatedAt_ge_createdAt (cfg : StoreCfg)
    (hclock : ∀ i j, i ≤ j → cfg.clock i ≤ cfg.clock j) (reqs : List Request) :
    (∀ r ∈ (serveAll cfg World.empty reqs).table, r.UpdatedAt ≥ r.CreatedAt) ∧
    (∀ (w : World) (id : String) (body : Option BlogPost),
      (run (storeEnv cfg) body (updateBlogPost id) w).final.table.map
          (fun r => (r.ID, r.CreatedAt)) =
        w.table.map (fun r => (r.ID, r.CreatedAt))) := by
  constructor
  · intro r hr
    have h0 : World.empty.inv cfg := by
      intro r hr
      simp [World.empty] at hr
    exact (serveAll_inv cfg hclock reqs World.empty h0 r hr).1
  · intro w id body
    obtain ⟨k, c, -, h | ⟨n, t, d, b, h⟩⟩ := update_final cfg w id body
    · rw [h]
    · rw [h]
      simp only [List.map_map]
      apply List.map_congr_left
      intro r _
      obtain ⟨h1, h2, -⟩ := updateRow_keeps n t d b (cfg.clock w.ticks) r
      simp [h1, h2]

/-- Witness of C9: the demo clock `5, 7, 9, ...` is non-decreasing; a create, a patch of
the created row and a delete of an absent id leave rows with updated_at >= created_at. -/
theorem store_updatedAt_ge_createdAt_witness :
    (∀ i j, i ≤ j → demoCfg.clock i ≤ demoCfg.clock j) ∧
    (serveAll demoCfg World.empty
      [.create (some demoBody), .update "1" (some demoPatch), .delete "2"]).table =
      [⟨1, "Z", "B", "C", 5, 9⟩] ∧
    ∀ r ∈ (serveAll demoCfg World.empty
      [.create (some demoBody), .update "1" (some demoPatch), .delete "2"]).table,
      r.UpdatedAt ≥ r.CreatedAt :=
  ⟨fun i j h => by
    show (5 : Int) + 2 * (i : Int) ≤ 5 + 2 * (j : Int)
    omega, by decide,
   (store_updatedAt_ge_createdAt demoCfg (fun i j h => by
      show (5 : Int) + 2 * (i : Int) ≤ 5 + 2 * (j : Int)
      omega)
     [.create (some demoBody), .update "1" (some demoPatch), .delete "2"]).1⟩

end BlogCrud
